import Mathlib

/-!
Shallow embedding of `src/bindgen.rs` from the wasm-pack repository: the
multi-strategy acquisition pipeline for the `wasm-bindgen` CLI and the
invocation of the acquired tool. Pure string manipulation is translated
directly; the external collaborators (executable search, subprocess runner,
cache store) are modelled as oracles supplied in a `World` record, and the
observable side effects (subprocess spawns, delegations to the cache store,
staging-directory mutations) are recorded in an explicit event trace.
-/

/-- Host operating-system family, as distinguished by the compile-time
target constants consulted in `prebuilt_url`. -/
inductive HostOS where
  | linux : HostOS
  | macos : HostOS
  | windows : HostOS
  | other : HostOS
deriving DecidableEq

/-- Modelled from the spec: the `target` module (repository code outside
`src/`) exposes the host OS family and whether the CPU architecture is
x86_64; `prebuilt_url` reads these constants. -/
structure HostPlatform where
  os : HostOS
  x86_64 : Bool
deriving DecidableEq

/-- Observable side effects of the pipeline: subprocess spawns, the single
delegation point to the cache store (the only place network access can
happen), and mutations of staging/canonical cache directories. -/
inductive Event where
  | probeSpawn (path : String) : Event
  | cacheDownloadCall (url : String) : Event
  | removeStaging (dir : String) : Event
  | createStaging (dir : String) : Event
  | cargoSpawn (args : List String) : Event
  | renameToCanonical (src dst : String) : Event
  | bindgenSpawn (path : String) (args : List String) : Event
deriving DecidableEq

/-- Modelled from the spec: outcomes of the external collaborators consumed
by the pipeline (the `which` executable search, the `child::run` subprocess
runner, the `Cache` store of the binary-install crate, and the filesystem),
none of which live under `src/`. Each field is the result the collaborator
would produce when the pipeline reaches the corresponding call site. -/
structure World where
  cacheRoot : String
  globalBin : Option String
  probeRun : Except String String
  platform : HostPlatform
  dirExists : String → Bool
  cacheDownload : Bool → String → List String → String → Except String (Option String)
  createDirRes : Except String Unit
  cargoRun : Except String String
  renameRes : Except String Unit

/-- Modelled from the spec: `Cache::join` (binary-install crate, outside
`src/`) appends a subdirectory name to the cache root. -/
def cacheJoin (root name : String) : String :=
  root ++ "/" ++ name

/-- Split a character list on whitespace, dropping empty pieces; `acc`
holds the characters of the current token in reverse. -/
def splitWSAux : List Char → List Char → List String
  | [], acc => if acc = [] then [] else [String.mk acc.reverse]
  | c :: cs, acc =>
    if c.isWhitespace then
      if acc = [] then splitWSAux cs [] else String.mk acc.reverse :: splitWSAux cs []
    else
      splitWSAux cs (c :: acc)

/-- Split a string on whitespace, dropping empty pieces: the behavior of
Rust `str::split_whitespace`. -/
def splitWhitespace (s : String) : List String :=
  splitWSAux s.data []

/-- Strip leading and trailing whitespace: the behavior of `str::trim`. -/
def trimChars (s : String) : String :=
  String.mk (((s.data.dropWhile Char.isWhitespace).reverse.dropWhile Char.isWhitespace).reverse)

/-- Parent directory of a path string: the behavior of `Path::parent`
followed by `unwrap` at the call site in `install_wasm_bindgen`: everything
before the last path separator. -/
def pathParent (p : String) : String :=
  let cs := p.data
  let idxs := (List.range cs.length).filter (fun i => cs.getD i ' ' == '/')
  match idxs.getLast? with
  | none => ""
  | some i => String.mk (cs.take i)

/-- Replace the extension of a file name: the behavior of
`Path::with_extension` on the final path component. The last dot at a
positive index begins the extension; a name with no dot, or whose only dot
is the leading character, has no extension to strip. -/
def withExtensionName (name ext : String) : String :=
  let cs := name.data
  let idxs := (List.range cs.length).filter (fun i => cs.getD i ' ' == '.')
  match idxs.getLast? with
  | none => name ++ "." ++ ext
  | some i => if i == 0 then name ++ "." ++ ext else String.mk (cs.take i) ++ "." ++ ext

/-- Embedding of `wasm_bindgen_version_check` from `src/bindgen.rs`: run the
candidate binary with `--version` (the run outcome is supplied as
`runResult`), trim the captured stdout, split on whitespace, take the second
token and compare it for exact string equality with the required version;
any failure along the way yields `false`. -/
def wasm_bindgen_version_check (runResult : Except String String) (dep_version : String) : Bool :=
  match runResult with
  | Except.error _ => false
  | Except.ok stdout =>
    match (splitWhitespace (trimChars stdout)).get? 1 with
    | none => false
    | some v => v == dep_version

/-- Embedding of `prebuilt_url` from `src/bindgen.rs`: map the host platform
to a release triple and build the GitHub releases download URL, or return
`none` on an unsupported host. -/
def prebuilt_url (version : String) (t : HostPlatform) : Option String :=
  let tgt : Option String :=
    if t.os = HostOS.linux ∧ t.x86_64 = true then some "x86_64-unknown-linux-musl"
    else if t.os = HostOS.macos ∧ t.x86_64 = true then some "x86_64-apple-darwin"
    else if t.os = HostOS.windows ∧ t.x86_64 = true then some "x86_64-pc-windows-msvc"
    else none
  match tgt with
  | none => none
  | some target =>
    some ("https://github.com/rustwasm/wasm-bindgen/releases/download/" ++ version
      ++ "/wasm-bindgen-" ++ version ++ "-" ++ target ++ ".tar.gz")

/-- The fixed list of binaries expected inside a prebuilt archive, from
`download_prebuilt_wasm_bindgen` in `src/bindgen.rs`. -/
def expected_binaries : List String :=
  ["wasm-bindgen", "wasm-bindgen-test-runner"]

/-- Embedding of `download_prebuilt_wasm_bindgen` from `src/bindgen.rs`:
bail with a platform error when `prebuilt_url` has no URL (before any
delegation to the cache store); otherwise delegate to
`Cache::download`, mapping its `Ok(None)` outcome to the not-installed
error. The second component is the event trace. -/
def download_prebuilt_wasm_bindgen (w : World) (version : String) (install_permitted : Bool) :
    Except String String × List Event :=
  match prebuilt_url version w.platform with
  | none => (Except.error "no prebuilt wasm-bindgen binaries are available for this platform", [])
  | some url =>
    match w.cacheDownload install_permitted "wasm-bindgen" expected_binaries url with
    | Except.error e => (Except.error e, [Event.cacheDownloadCall url])
    | Except.ok none =>
      (Except.error ("wasm-bindgen v" ++ version ++ " is not installed!"),
        [Event.cacheDownloadCall url])
    | Except.ok (some dl) => (Except.ok dl, [Event.cacheDownloadCall url])

/-- Embedding of `cargo_install_wasm_bindgen` from `src/bindgen.rs`: reuse
the canonical cache directory if it exists; bail with the not-installed
error when installation is not permitted; otherwise clear and recreate the
hidden staging directory, run `cargo install` into it (wrapping a failure
with the context string), and finally rename the staging directory to the
canonical one. -/
def cargo_install_wasm_bindgen (w : World) (version : String) (install_permitted : Bool) :
    Except String String × List Event :=
  let dirname := "wasm-bindgen-cargo-install-" ++ version
  let destination := cacheJoin w.cacheRoot dirname
  if w.dirExists destination then
    (Except.ok destination, [])
  else if install_permitted = false then
    (Except.error ("wasm-bindgen v" ++ version ++ " is not installed!"), [])
  else
    let tmp := cacheJoin w.cacheRoot ("." ++ dirname)
    match w.createDirRes with
    | Except.error e => (Except.error e, [Event.removeStaging tmp])
    | Except.ok _ =>
      let cargoArgs := ["install", "--force", "wasm-bindgen-cli", "--version", version,
        "--root", tmp]
      let ev := [Event.removeStaging tmp, Event.createStaging tmp, Event.cargoSpawn cargoArgs]
      match w.cargoRun with
      | Except.error e =>
        (Except.error ("Installing wasm-bindgen with cargo: " ++ e), ev)
      | Except.ok _ =>
        match w.renameRes with
        | Except.error e => (Except.error e, ev)
        | Except.ok _ =>
          (Except.ok destination, ev ++ [Event.renameToCanonical tmp destination])

/-- Embedding of `install_wasm_bindgen` from `src/bindgen.rs`: if a global
`wasm-bindgen` binary is on the search path, probe its version (a
subprocess spawn) and on a match return its containing directory;
otherwise try the prebuilt download, and on any failure of that strategy
fall through to the cargo source install. -/
def install_wasm_bindgen (w : World) (version : String) (install_permitted : Bool) :
    Except String String × List Event :=
  let fallback : List Event → Except String String × List Event := fun ev0 =>
    match download_prebuilt_wasm_bindgen w version install_permitted with
    | (Except.ok dl, ev1) => (Except.ok dl, ev0 ++ ev1)
    | (Except.error _, ev1) =>
      let r := cargo_install_wasm_bindgen w version install_permitted
      (r.1, ev0 ++ ev1 ++ r.2)
  match w.globalBin with
  | none => fallback []
  | some path =>
    if wasm_bindgen_version_check w.probeRun version then
      (Except.ok (pathParent path), [Event.probeSpawn path])
    else
      fallback [Event.probeSpawn path]

/-- Crate metadata consumed by `wasm_bindgen_build`: the cargo target
directory and the crate name. -/
structure CrateData where
  target_directory : String
  crate_name : String

/-- A filesystem path as handed to `wasm_bindgen_build`: Rust paths need
not be valid UTF-8, and `Path::to_str` yields `none` exactly on a
non-UTF-8 path. -/
structure RPath where
  utf8 : Option String

/-- Modelled from the spec: `Download::binary` (binary-install crate,
outside `src/`) resolves a fixed binary name inside the handle directory
and fails with the tool-not-found error when the binary is absent, without
spawning any subprocess. -/
def downloadBinary (dir : String) (bins : List String) (name : String) : Except String String :=
  if name ∈ bins then Except.ok (dir ++ "/" ++ name) else Except.error "ToolNotFoundInHandle"

/-- Embedding of `wasm_bindgen_build` from `src/bindgen.rs`: convert the
output directory with `to_str().unwrap()` (`none` in the result models the
panic on a non-UTF-8 path), compute the wasm artifact path, build the
argument list, resolve the tool binary inside the handle, and run it. The
handle is given as its directory plus the list of binaries it contains;
`run` is the outcome the subprocess runner would produce. -/
def wasm_bindgen_build (data : CrateData) (bindgen_dir : String) (bindgen_bins : List String)
    (out_dir : RPath) (disable_dts : Bool) (target : String) (debug : Bool)
    (run : Except String String) : Option (Except String Unit × List Event) :=
  let release_or_debug := if debug then "debug" else "release"
  match out_dir.utf8 with
  | none => none
  | some od =>
    let wasm_path := data.target_directory ++ "/wasm32-unknown-unknown/" ++ release_or_debug
      ++ "/" ++ withExtensionName data.crate_name "wasm"
    let dts_arg := if disable_dts then "--no-typescript" else "--typescript"
    let target_arg :=
      match target with
      | "nodejs" => "--nodejs"
      | "no-modules" => "--no-modules"
      | _ => "--browser"
    match downloadBinary bindgen_dir bindgen_bins "wasm-bindgen" with
    | Except.error e => some (Except.error e, [])
    | Except.ok bindgen_path =>
      let args := [wasm_path, "--out-dir", od, dts_arg, target_arg]
        ++ (if debug then ["--debug"] else [])
      match run with
      | Except.error e =>
        some (Except.error ("Running the wasm-bindgen CLI: " ++ e),
          [Event.bindgenSpawn bindgen_path args])
      | Except.ok _ => some (Except.ok (), [Event.bindgenSpawn bindgen_path args])

/-- A world with a global binary of the wrong version, a failing download
and a failing cargo install. -/
def Wglobal : World :=
  { cacheRoot := "/cache"
    globalBin := some "/usr/bin/wasm-bindgen"
    probeRun := Except.ok "wasm-bindgen 0.2.70"
    platform := ⟨HostOS.linux, true⟩
    dirExists := fun _ => false
    cacheDownload := fun _ _ _ _ => Except.error "could not download"
    createDirRes := Except.ok ()
    cargoRun := Except.error "exit code 101"
    renameRes := Except.ok () }

/-- A world with no global binary, an unsupported platform, an empty cache
and a failing cargo install. -/
def Wunsupported : World :=
  { cacheRoot := "/cache"
    globalBin := none
    probeRun := Except.error "no binary"
    platform := ⟨HostOS.other, true⟩
    dirExists := fun _ => false
    cacheDownload := fun _ _ _ _ => Except.error "could not download"
    createDirRes := Except.ok ()
    cargoRun := Except.error "exit code 101"
    renameRes := Except.ok () }

/-- A world where every cache directory already exists. -/
def Wcached : World :=
  { cacheRoot := "/cache"
    globalBin := none
    probeRun := Except.error "no binary"
    platform := ⟨HostOS.linux, true⟩
    dirExists := fun _ => true
    cacheDownload := fun _ _ _ _ => Except.error "could not download"
    createDirRes := Except.ok ()
    cargoRun := Except.error "exit code 101"
    renameRes := Except.ok () }

/-- A world where the download fails but the cargo install succeeds. -/
def Wcargo : World :=
  { cacheRoot := "/cache"
    globalBin := none
    probeRun := Except.error "no binary"
    platform := ⟨HostOS.linux, true⟩
    dirExists := fun _ => false
    cacheDownload := fun _ _ _ _ => Except.error "could not download"
    createDirRes := Except.ok ()
    cargoRun := Except.ok "installed"
    renameRes := Except.ok () }

/-- String append is associative; used to normalize URL concatenations. -/
theorem stringAppendAssoc (a b c : String) : a ++ b ++ c = a ++ (b ++ c) := by
  rcases a with ⟨la⟩
  rcases b with ⟨lb⟩
  rcases c with ⟨lc⟩
  show String.mk (la ++ lb ++ lc) = String.mk (la ++ (lb ++ lc))
  rw [List.append_assoc]

/-- C4: `wasm_bindgen_version_check` returns `true` iff the subprocess run
succeeded and the second whitespace-delimited token of the trimmed output
is exactly, case-sensitively, string-equal to the required version; it
returns `false` (never an error) on subprocess failure or when fewer than
two tokens are present. -/
theorem wasm_bindgen_version_check_spec :
    (∀ (r : Except String String) (dep : String),
      wasm_bindgen_version_check r dep = true ↔
        ∃ out, r = Except.ok out ∧ (splitWhitespace (trimChars out)).get? 1 = some dep)
    ∧ wasm_bindgen_version_check (Except.ok "wasm-bindgen 0.2.74") "0.2.74" = true
    ∧ wasm_bindgen_version_check (Except.ok "wasm-bindgen 0.2.74") "0.2.75" = false
    ∧ wasm_bindgen_version_check (Except.ok "wasm-bindgen 0.2.74-BETA") "0.2.74-beta" = false
    ∧ wasm_bindgen_version_check (Except.ok "wasm-bindgen") "0.2.74" = false
    ∧ wasm_bindgen_version_check (Except.error "spawn failed") "0.2.74" = false := by
  refine ⟨?_, by decide, by decide, by decide, by decide, by decide⟩
  intro r dep
  cases r with
  | error e => simp [wasm_bindgen_version_check]
  | ok out =>
    constructor
    · intro ht
      simp only [wasm_bindgen_version_check] at ht
      cases h : (splitWhitespace (trimChars out)).get? 1 with
      | none => rw [h] at ht; simp at ht
      | some v =>
        rw [h] at ht
        simp at ht
        exact ⟨out, rfl, by rw [h, ht]⟩
    · rintro ⟨out2, heq, h2⟩
      injection heq with h3
      subst h3
      simp only [wasm_bindgen_version_check]
      rw [h2]
      simp

/-- C5: `prebuilt_url` returns a URL exactly for 64-bit Linux, macOS and
Windows, with the URL built from the releases base, the version and the
matched triple; on every other host it returns none and
`download_prebuilt_wasm_bindgen` fails before any delegation to the cache
store (the event trace is empty). The Linux archive for version 0.2.74 and
the expected binaries are spelled out. -/
theorem prebuilt_url_platform_spec :
    (∀ (version : String) (t : HostPlatform),
      (prebuilt_url version t).isSome = true ↔
        (t.x86_64 = true ∧
          (t.os = HostOS.linux ∨ t.os = HostOS.macos ∨ t.os = HostOS.windows)))
    ∧ (∀ version : String,
        prebuilt_url version ⟨HostOS.linux, true⟩ =
          some ("https://github.com/rustwasm/wasm-bindgen/releases/download/" ++ version
            ++ "/wasm-bindgen-" ++ version ++ "-x86_64-unknown-linux-musl.tar.gz")
        ∧ prebuilt_url version ⟨HostOS.macos, true⟩ =
          some ("https://github.com/rustwasm/wasm-bindgen/releases/download/" ++ version
            ++ "/wasm-bindgen-" ++ version ++ "-x86_64-apple-darwin.tar.gz")
        ∧ prebuilt_url version ⟨HostOS.windows, true⟩ =
          some ("https://github.com/rustwasm/wasm-bindgen/releases/download/" ++ version
            ++ "/wasm-bindgen-" ++ version ++ "-x86_64-pc-windows-msvc.tar.gz"))
    ∧ prebuilt_url "0.2.74" ⟨HostOS.linux, true⟩ =
        some "https://github.com/rustwasm/wasm-bindgen/releases/download/0.2.74/wasm-bindgen-0.2.74-x86_64-unknown-linux-musl.tar.gz"
    ∧ expected_binaries = ["wasm-bindgen", "wasm-bindgen-test-runner"]
    ∧ (∀ (w : World) (version : String) (ip : Bool),
        prebuilt_url version w.platform = none →
          download_prebuilt_wasm_bindgen w version ip =
            (Except.error "no prebuilt wasm-bindgen binaries are available for this platform",
              [])) := by
  refine ⟨?_, ?_, by decide, by decide, ?_⟩
  · intro version t
    obtain ⟨os, x⟩ := t
    cases os <;> cases x <;> simp [prebuilt_url]
  · intro version
    refine ⟨?_, ?_, ?_⟩
    · have h : prebuilt_url version ⟨HostOS.linux, true⟩ =
          some ("https://github.com/rustwasm/wasm-bindgen/releases/download/" ++ version
            ++ "/wasm-bindgen-" ++ version ++ "-" ++ "x86_64-unknown-linux-musl"
            ++ ".tar.gz") := rfl
      rw [h, stringAppendAssoc, stringAppendAssoc]
      rfl
    · have h : prebuilt_url version ⟨HostOS.macos, true⟩ =
          some ("https://github.com/rustwasm/wasm-bindgen/releases/download/" ++ version
            ++ "/wasm-bindgen-" ++ version ++ "-" ++ "x86_64-apple-darwin"
            ++ ".tar.gz") := rfl
      rw [h, stringAppendAssoc, stringAppendAssoc]
      rfl
    · have h : prebuilt_url version ⟨HostOS.windows, true⟩ =
          some ("https://github.com/rustwasm/wasm-bindgen/releases/download/" ++ version
            ++ "/wasm-bindgen-" ++ version ++ "-" ++ "x86_64-pc-windows-msvc"
            ++ ".tar.gz") := rfl
      rw [h, stringAppendAssoc, stringAppendAssoc]
      rfl
  · intro w version ip h
    simp [download_prebuilt_wasm_bindgen, h]

/-- C5 witness: on the unsupported host of `Wunsupported`,
`download_prebuilt_wasm_bindgen` fails with the platform error and an
empty event trace. -/
theorem prebuilt_url_platform_spec_witness :
    prebuilt_url "0.2.74" Wunsupported.platform = none
    ∧ download_prebuilt_wasm_bindgen Wunsupported "0.2.74" true =
        (Except.error "no prebuilt wasm-bindgen binaries are available for this platform", []) :=
  ⟨rfl, prebuilt_url_platform_spec.2.2.2.2 Wunsupported "0.2.74" true rfl⟩

/-- C1: when a global `wasm-bindgen` binary is found but its probed version
does not match, `install_wasm_bindgen` does not short-circuit on the
global path: its result is the download strategy result when that
succeeds, and the cargo-install strategy result when the download fails. -/
theorem install_wasm_bindgen_global_mismatch_falls_through
    (w : World) (version : String) (ip : Bool) (path : String)
    (hg : w.globalBin = some path)
    (hv : wasm_bindgen_version_check w.probeRun version = false) :
    (install_wasm_bindgen w version ip).1 =
      match (download_prebuilt_wasm_bindgen w version ip).1 with
      | Except.ok dl => Except.ok dl
      | Except.error _ => (cargo_install_wasm_bindgen w version ip).1 := by
  rcases hd : download_prebuilt_wasm_bindgen w version ip with ⟨r, ev⟩
  cases r <;> simp [install_wasm_bindgen, hg, hv, hd]

/-- C1 witness: in `Wglobal` the global binary reports version 0.2.70, the
probe for 0.2.74 fails, and the pipeline falls through to the download and
then cargo strategies. -/
theorem install_wasm_bindgen_global_mismatch_falls_through_witness :
    Wglobal.globalBin = some "/usr/bin/wasm-bindgen"
    ∧ wasm_bindgen_version_check Wglobal.probeRun "0.2.74" = false
    ∧ (install_wasm_bindgen Wglobal "0.2.74" true).1 =
        match (download_prebuilt_wasm_bindgen Wglobal "0.2.74" true).1 with
        | Except.ok dl => Except.ok dl
        | Except.error _ => (cargo_install_wasm_bindgen Wglobal "0.2.74" true).1 :=
  ⟨rfl, by decide,
    install_wasm_bindgen_global_mismatch_falls_through Wglobal "0.2.74" true
      "/usr/bin/wasm-bindgen" rfl (by decide)⟩

/-- C2: with no matching global binary, an unsupported platform, no cached
source-install directory and installation not permitted,
`install_wasm_bindgen` fails with the terminal not-installed error and the
event trace is empty apart from the version probe, which happens only when
a global binary was found. -/
theorem install_wasm_bindgen_permission_terminal
    (w : World) (version : String)
    (hg : ∀ p, w.globalBin = some p → wasm_bindgen_version_check w.probeRun version = false)
    (hp : prebuilt_url version w.platform = none)
    (hd : w.dirExists (cacheJoin w.cacheRoot ("wasm-bindgen-cargo-install-" ++ version))
      = false) :
    install_wasm_bindgen w version false =
      (Except.error ("wasm-bindgen v" ++ version ++ " is not installed!"),
        match w.globalBin with
        | none => []
        | some p => [Event.probeSpawn p]) := by
  cases hgb : w.globalBin with
  | none =>
    simp [install_wasm_bindgen, hgb, download_prebuilt_wasm_bindgen, hp,
      cargo_install_wasm_bindgen, hd]
  | some p =>
    have hv := hg p hgb
    simp [install_wasm_bindgen, hgb, hv, download_prebuilt_wasm_bindgen, hp,
      cargo_install_wasm_bindgen, hd]

/-- C2 witness: in `Wunsupported` with permission withheld, the pipeline
fails with the not-installed error and performs no spawn, no delegation to
the cache store and no staging mutation at all. -/
theorem install_wasm_bindgen_permission_terminal_witness :
    (∀ p, Wunsupported.globalBin = some p →
        wasm_bindgen_version_check Wunsupported.probeRun "0.2.74" = false)
    ∧ prebuilt_url "0.2.74" Wunsupported.platform = none
    ∧ Wunsupported.dirExists
        (cacheJoin Wunsupported.cacheRoot ("wasm-bindgen-cargo-install-" ++ "0.2.74")) = false
    ∧ install_wasm_bindgen Wunsupported "0.2.74" false =
        (Except.error "wasm-bindgen v0.2.74 is not installed!", []) :=
  ⟨fun p h => by simp [Wunsupported] at h, rfl, rfl,
    install_wasm_bindgen_permission_terminal Wunsupported "0.2.74"
      (fun p h => by simp [Wunsupported] at h) rfl rfl⟩

/-- C3: when the canonical source-install cache directory for a version
already exists, `cargo_install_wasm_bindgen` returns that directory with an
empty event trace (no cargo spawn, no staging mutation) for every value of
the permission flag; re-running with the same inputs therefore yields the
same handle. -/
theorem cargo_install_reuses_existing_cache_dir
    (w : World) (version : String)
    (hd : w.dirExists (cacheJoin w.cacheRoot ("wasm-bindgen-cargo-install-" ++ version))
      = true) :
    ∀ ip : Bool,
      cargo_install_wasm_bindgen w version ip =
        (Except.ok (cacheJoin w.cacheRoot ("wasm-bindgen-cargo-install-" ++ version)), []) := by
  intro ip
  simp [cargo_install_wasm_bindgen, hd]

/-- C3 witness: in `Wcached` the canonical directory exists and both the
permitted and the non-permitted run return the same handle with no
events. -/
theorem cargo_install_reuses_existing_cache_dir_witness :
    Wcached.dirExists
      (cacheJoin Wcached.cacheRoot ("wasm-bindgen-cargo-install-" ++ "0.2.74")) = true
    ∧ cargo_install_wasm_bindgen Wcached "0.2.74" true =
        (Except.ok "/cache/wasm-bindgen-cargo-install-0.2.74", [])
    ∧ cargo_install_wasm_bindgen Wcached "0.2.74" false =
        (Except.ok "/cache/wasm-bindgen-cargo-install-0.2.74", []) :=
  ⟨rfl, cargo_install_reuses_existing_cache_dir Wcached "0.2.74" rfl true,
    cargo_install_reuses_existing_cache_dir Wcached "0.2.74" rfl false⟩

/-- C6: on the source-install path the staging directory is the hidden
sibling named by a dot followed by the canonical name; it is removed and
recreated before the cargo spawn; the canonical directory appears only
through the single rename event after a successful install, and when the
install subprocess fails no rename event occurs at all. -/
theorem cargo_install_staging_protocol
    (w : World) (version : String)
    (hd : w.dirExists (cacheJoin w.cacheRoot ("wasm-bindgen-cargo-install-" ++ version))
      = false)
    (hc : w.createDirRes = Except.ok ()) :
    (∀ e, w.cargoRun = Except.error e →
      cargo_install_wasm_bindgen w version true =
        (Except.error ("Installing wasm-bindgen with cargo: " ++ e),
          [Event.removeStaging
            (cacheJoin w.cacheRoot ("." ++ ("wasm-bindgen-cargo-install-" ++ version))),
           Event.createStaging
            (cacheJoin w.cacheRoot ("." ++ ("wasm-bindgen-cargo-install-" ++ version))),
           Event.cargoSpawn ["install", "--force", "wasm-bindgen-cli", "--version", version,
             "--root",
             cacheJoin w.cacheRoot ("." ++ ("wasm-bindgen-cargo-install-" ++ version))]]))
    ∧ (∀ s, w.cargoRun = Except.ok s → w.renameRes = Except.ok () →
      cargo_install_wasm_bindgen w version true =
        (Except.ok (cacheJoin w.cacheRoot ("wasm-bindgen-cargo-install-" ++ version)),
          [Event.removeStaging
            (cacheJoin w.cacheRoot ("." ++ ("wasm-bindgen-cargo-install-" ++ version))),
           Event.createStaging
            (cacheJoin w.cacheRoot ("." ++ ("wasm-bindgen-cargo-install-" ++ version))),
           Event.cargoSpawn ["install", "--force", "wasm-bindgen-cli", "--version", version,
             "--root",
             cacheJoin w.cacheRoot ("." ++ ("wasm-bindgen-cargo-install-" ++ version))],
           Event.renameToCanonical
             (cacheJoin w.cacheRoot ("." ++ ("wasm-bindgen-cargo-install-" ++ version)))
             (cacheJoin w.cacheRoot ("wasm-bindgen-cargo-install-" ++ version))])) := by
  constructor
  · intro e he
    simp [cargo_install_wasm_bindgen, hd, hc, he]
  · intro s hs hr
    simp [cargo_install_wasm_bindgen, hd, hc, hs, hr]

/-- C6 witness: in `Wglobal` the cargo subprocess fails and the trace ends
at the spawn with no rename; in `Wcargo` it succeeds and the trace ends
with the single rename of the staging directory to the canonical one. -/
theorem cargo_install_staging_protocol_witness :
    Wglobal.dirExists "/cache/wasm-bindgen-cargo-install-0.2.74" = false
    ∧ Wglobal.createDirRes = Except.ok ()
    ∧ Wglobal.cargoRun = Except.error "exit code 101"
    ∧ cargo_install_wasm_bindgen Wglobal "0.2.74" true =
        (Except.error "Installing wasm-bindgen with cargo: exit code 101",
          [Event.removeStaging "/cache/.wasm-bindgen-cargo-install-0.2.74",
           Event.createStaging "/cache/.wasm-bindgen-cargo-install-0.2.74",
           Event.cargoSpawn ["install", "--force", "wasm-bindgen-cli", "--version", "0.2.74",
             "--root", "/cache/.wasm-bindgen-cargo-install-0.2.74"]])
    ∧ Wcargo.cargoRun = Except.ok "installed"
    ∧ cargo_install_wasm_bindgen Wcargo "0.2.74" true =
        (Except.ok "/cache/wasm-bindgen-cargo-install-0.2.74",
          [Event.removeStaging "/cache/.wasm-bindgen-cargo-install-0.2.74",
           Event.createStaging "/cache/.wasm-bindgen-cargo-install-0.2.74",
           Event.cargoSpawn ["install", "--force", "wasm-bindgen-cli", "--version", "0.2.74",
             "--root", "/cache/.wasm-bindgen-cargo-install-0.2.74"],
           Event.renameToCanonical "/cache/.wasm-bindgen-cargo-install-0.2.74"
             "/cache/wasm-bindgen-cargo-install-0.2.74"]) :=
  ⟨rfl, rfl, rfl,
    (cargo_install_staging_protocol Wglobal "0.2.74" rfl rfl).1 "exit code 101" rfl,
    rfl,
    (cargo_install_staging_protocol Wcargo "0.2.74" rfl rfl).2 "installed" rfl rfl⟩

/-- C8: a failure of the prebuilt-download strategy is absorbed by
`install_wasm_bindgen`, whose result is then the cargo strategy result;
and when the cargo install subprocess itself fails, the caller receives
that last error wrapped with the context naming the failed operation. -/
theorem install_wasm_bindgen_error_propagation
    (w : World) (version : String) (ip : Bool)
    (hg : ∀ p, w.globalBin = some p → wasm_bindgen_version_check w.probeRun version = false) :
    (∀ d, (download_prebuilt_wasm_bindgen w version ip).1 = Except.error d →
      (install_wasm_bindgen w version ip).1 = (cargo_install_wasm_bindgen w version ip).1)
    ∧ (∀ d e, (download_prebuilt_wasm_bindgen w version ip).1 = Except.error d →
        w.dirExists (cacheJoin w.cacheRoot ("wasm-bindgen-cargo-install-" ++ version))
          = false →
        ip = true →
        w.createDirRes = Except.ok () →
        w.cargoRun = Except.error e →
        (install_wasm_bindgen w version ip).1 =
          Except.error ("Installing wasm-bindgen with cargo: " ++ e)) := by
  have key : ∀ d, (download_prebuilt_wasm_bindgen w version ip).1 = Except.error d →
      (install_wasm_bindgen w version ip).1 = (cargo_install_wasm_bindgen w version ip).1 := by
    intro d hdl
    rcases hdp : download_prebuilt_wasm_bindgen w version ip with ⟨r, ev⟩
    rw [hdp] at hdl
    simp at hdl
    cases hgb : w.globalBin with
    | none => simp [install_wasm_bindgen, hgb, hdp, hdl]
    | some p =>
      have hv := hg p hgb
      simp [install_wasm_bindgen, hgb, hv, hdp, hdl]
  refine ⟨key, ?_⟩
  intro d e hdl hdir hip hc hcr
  subst hip
  rw [key d hdl]
  simp [cargo_install_wasm_bindgen, hdir, hc, hcr]

/-- C8 witness: in `Wglobal` the download fails with a network error, the
pipeline result equals the cargo strategy result, and the surfaced error is
the cargo failure wrapped with the installing-with-cargo context. -/
theorem install_wasm_bindgen_error_propagation_witness :
    (download_prebuilt_wasm_bindgen Wglobal "0.2.74" true).1 = Except.error "could not download"
    ∧ (install_wasm_bindgen Wglobal "0.2.74" true).1 =
        (cargo_install_wasm_bindgen Wglobal "0.2.74" true).1
    ∧ (install_wasm_bindgen Wglobal "0.2.74" true).1 =
        Except.error "Installing wasm-bindgen with cargo: exit code 101" :=
  ⟨rfl,
    (install_wasm_bindgen_error_propagation Wglobal "0.2.74" true (fun _ _ => by decide)).1
      "could not download" rfl,
    (install_wasm_bindgen_error_propagation Wglobal "0.2.74" true (fun _ _ => by decide)).2
      "could not download" "exit code 101" rfl rfl rfl rfl rfl⟩

/-- C7: when the handle contains the tool binary and the output directory
is valid UTF-8, `wasm_bindgen_build` spawns exactly one subprocess whose
argument list is, in fixed order: the wasm artifact path, the out-dir flag
and destination, the declaration flag, the target flag (with `--browser`
as the defined fallback for every unrecognized target string), and
`--debug` exactly when debug is true. -/
theorem wasm_bindgen_build_args_spec
    (data : CrateData) (dir : String) (bins : List String) (od : String)
    (disable_dts : Bool) (target : String) (debug : Bool) (run : Except String String)
    (hb : "wasm-bindgen" ∈ bins) :
    (wasm_bindgen_build data dir bins ⟨some od⟩ disable_dts target debug run).map Prod.snd =
      some [Event.bindgenSpawn (dir ++ "/wasm-bindgen")
        ([data.target_directory ++ "/wasm32-unknown-unknown/"
            ++ (if debug then "debug" else "release") ++ "/"
            ++ withExtensionName data.crate_name "wasm",
          "--out-dir", od,
          (if disable_dts then "--no-typescript" else "--typescript"),
          (if target = "nodejs" then "--nodejs"
           else if target = "no-modules" then "--no-modules" else "--browser")]
          ++ (if debug then ["--debug"] else []))] := by
  have hbin : downloadBinary dir bins "wasm-bindgen" = Except.ok (dir ++ "/wasm-bindgen") := by
    simp [downloadBinary, hb]
    rw [stringAppendAssoc]
    rfl
  by_cases h1 : target = "nodejs"
  · subst h1
    cases run <;> simp [wasm_bindgen_build, hbin]
  · by_cases h2 : target = "no-modules"
    · subst h2
      cases run <;> simp [wasm_bindgen_build, hbin, h1]
    · cases run <;> simp [wasm_bindgen_build, hbin, h1, h2]

/-- C7 witness: a concrete invocation with an unrecognized target string
produces the browser fallback flag, and debug appends the debug flag. -/
theorem wasm_bindgen_build_args_spec_witness :
    "wasm-bindgen" ∈ ["wasm-bindgen", "wasm-bindgen-test-runner"]
    ∧ (wasm_bindgen_build ⟨"/target", "mycrate"⟩ "/bin" ["wasm-bindgen", "wasm-bindgen-test-runner"]
        ⟨some "/out"⟩ false "weird-target" true (Except.ok "")).map Prod.snd =
      some [Event.bindgenSpawn "/bin/wasm-bindgen"
        ["/target/wasm32-unknown-unknown/debug/mycrate.wasm", "--out-dir", "/out",
         "--typescript", "--browser", "--debug"]] :=
  ⟨by decide,
    wasm_bindgen_build_args_spec ⟨"/target", "mycrate"⟩ "/bin"
      ["wasm-bindgen", "wasm-bindgen-test-runner"] "/out" false "weird-target" true
      (Except.ok "") (by decide)⟩

/-- C9: when the handle directory does not contain the expected
`wasm-bindgen` binary, `wasm_bindgen_build` fails with the
tool-not-found error and its event trace is empty: no subprocess is
spawned. -/
theorem wasm_bindgen_build_missing_binary
    (data : CrateData) (dir : String) (bins : List String) (od : String)
    (disable_dts : Bool) (target : String) (debug : Bool) (run : Except String String)
    (hb : "wasm-bindgen" ∉ bins) :
    wasm_bindgen_build data dir bins ⟨some od⟩ disable_dts target debug run =
      some (Except.error "ToolNotFoundInHandle", []) := by
  have hbin : downloadBinary dir bins "wasm-bindgen" = Except.error "ToolNotFoundInHandle" := by
    simp [downloadBinary, hb]
  simp [wasm_bindgen_build, hbin]

/-- C9 witness: against an empty handle the build fails with the
tool-not-found error and an empty trace. -/
theorem wasm_bindgen_build_missing_binary_witness :
    "wasm-bindgen" ∉ ([] : List String)
    ∧ wasm_bindgen_build ⟨"/target", "mycrate"⟩ "/bin" [] ⟨some "/out"⟩ false "nodejs" false
        (Except.ok "") = some (Except.error "ToolNotFoundInHandle", []) :=
  ⟨by decide,
    wasm_bindgen_build_missing_binary ⟨"/target", "mycrate"⟩ "/bin" [] "/out" false "nodejs"
      false (Except.ok "") (by decide)⟩

/-- C10: `wasm_bindgen_build` converts the output directory before any
argument construction and panics (modelled as `none`) exactly when the
path is not valid UTF-8; under the UTF-8 precondition the operation is
total. -/
theorem wasm_bindgen_build_panics_on_non_utf8
    (data : CrateData) (dir : String) (bins : List String)
    (disable_dts : Bool) (target : String) (debug : Bool) (run : Except String String) :
    wasm_bindgen_build data dir bins ⟨none⟩ disable_dts target debug run = none
    ∧ ∀ od : String,
        (wasm_bindgen_build data dir bins ⟨some od⟩ disable_dts target debug run).isSome
          = true := by
  refine ⟨rfl, ?_⟩
  intro od
  cases hbin : downloadBinary dir bins "wasm-bindgen" with
  | error e => simp [wasm_bindgen_build, hbin]
  | ok p => cases run <;> simp [wasm_bindgen_build, hbin]
